import Mathlib

/-!
# OV5640 sensor bring-up (drivers/media/i2c/ov5640.c)

A shallow embedding of the driver's register channel, bulk programmer, reset
sequencer, initialisation routine and probe routine, followed by theorems about
them.

Modelling conventions.
* Every effect of the driver on the outside (serial bus transfers, reset line
  writes, sleeps, stores to the mapped capture registers) is appended to a
  trace of `Event`s carried in `World`.
* The kernel services the driver calls (`i2c_master_send`, `i2c_master_recv`,
  `of_get_named_gpio`, `gpio_is_valid`, `devm_gpio_request_one`) are not part
  of the file; they are the fields of `Env`, so every theorem quantifies over
  all their possible results.  The `client` argument of the C functions is
  this `Env`.
* `dev_info` / `dev_err` calls only log; they are left out.
* `u16` / `u8` values are natural numbers; the conversion to `unsigned char`
  in the frame initialisers is an explicit `% 256`.
* Reading a `regval_list` array past its last element is undefined in C; the
  model returns `none` there.
-/

namespace OV5640

/-! ## Constants -/

/-- The errno value `EIO`. -/
def EIO : Int := 5

/-- The errno value `ENODEV`. -/
def ENODEV : Int := 19

/-- The errno value `EINVAL`. -/
def EINVAL : Int := 22

def REG_CHIP_ID_HIGH : Nat := 0x300A
def REG_CHIP_ID_LOW : Nat := 0x300B

/-- One entry of a register table: `struct regval_list`. -/
structure regval_list where
  reg_num : Nat
  value : Nat
deriving DecidableEq, Repr

/-- The table `ov5640_default_regs_init` (720p@30 v1), entries in source order;
entries inside comments in the source are not part of the array. -/
def ov5640_default_regs_init : List regval_list := [
  regval_list.mk 0x3103 0x11, regval_list.mk 0x3008 0x82, regval_list.mk 0x3008 0x42, regval_list.mk 0x3103 0x03,
  regval_list.mk 0x4005 0x1a, regval_list.mk 0x4740 0x20, regval_list.mk 0x3017 0xff, regval_list.mk 0x3018 0xff,
  regval_list.mk 0x3034 0x1a, regval_list.mk 0x3035 0x11, regval_list.mk 0x3036 0x69, regval_list.mk 0x3037 0x13,
  regval_list.mk 0x3108 0x01, regval_list.mk 0x3630 0x36, regval_list.mk 0x3631 0x0e, regval_list.mk 0x3632 0xe2,
  regval_list.mk 0x3633 0x12, regval_list.mk 0x3621 0xe0, regval_list.mk 0x3704 0xa0, regval_list.mk 0x3703 0x5a,
  regval_list.mk 0x3715 0x78, regval_list.mk 0x3717 0x01, regval_list.mk 0x370b 0x60, regval_list.mk 0x3705 0x1a,
  regval_list.mk 0x3905 0x02, regval_list.mk 0x3906 0x10, regval_list.mk 0x3901 0x0a, regval_list.mk 0x3731 0x12,
  regval_list.mk 0x3600 0x08, regval_list.mk 0x3601 0x33, regval_list.mk 0x302d 0x60, regval_list.mk 0x3620 0x52,
  regval_list.mk 0x371b 0x20, regval_list.mk 0x471c 0x50, regval_list.mk 0x3a13 0x43, regval_list.mk 0x3a18 0x00,
  regval_list.mk 0x3a19 0xf8, regval_list.mk 0x3635 0x13, regval_list.mk 0x3636 0x03, regval_list.mk 0x3634 0x40,
  regval_list.mk 0x3622 0x01, regval_list.mk 0x3c01 0x34, regval_list.mk 0x3c00 0x00, regval_list.mk 0x3c04 0x28,
  regval_list.mk 0x3c05 0x98, regval_list.mk 0x3c06 0x00, regval_list.mk 0x3c07 0x07, regval_list.mk 0x3c08 0x00,
  regval_list.mk 0x3c09 0x1c, regval_list.mk 0x3c0a 0x9c, regval_list.mk 0x3c0b 0x40, regval_list.mk 0x3820 0x43,
  regval_list.mk 0x3821 0x05, regval_list.mk 0x3814 0x31, regval_list.mk 0x3815 0x31, regval_list.mk 0x3800 0x00,
  regval_list.mk 0x3801 0x00, regval_list.mk 0x3802 0x00, regval_list.mk 0x3803 0xfa, regval_list.mk 0x3804 0x0a,
  regval_list.mk 0x3805 0x3f, regval_list.mk 0x3806 0x06, regval_list.mk 0x3807 0xa9, regval_list.mk 0x3808 0x05,
  regval_list.mk 0x3809 0x00, regval_list.mk 0x380a 0x02, regval_list.mk 0x380b 0xd0, regval_list.mk 0x3503 0x00,
  regval_list.mk 0x380c 0x07, regval_list.mk 0x380d 0x64, regval_list.mk 0x380e 0x02, regval_list.mk 0x380f 0xe4,
  regval_list.mk 0x3810 0x00, regval_list.mk 0x3811 0x10, regval_list.mk 0x3812 0x00, regval_list.mk 0x3813 0x04,
  regval_list.mk 0x3618 0x00, regval_list.mk 0x3612 0x29, regval_list.mk 0x3708 0x64, regval_list.mk 0x3709 0x52,
  regval_list.mk 0x370c 0x03, regval_list.mk 0x3a02 0x02, regval_list.mk 0x3a03 0xe4, regval_list.mk 0x3a14 0x02,
  regval_list.mk 0x3a15 0xe4, regval_list.mk 0x3b07 0x0a, regval_list.mk 0x4001 0x02, regval_list.mk 0x4004 0x02,
  regval_list.mk 0x3000 0x00, regval_list.mk 0x3002 0x1c, regval_list.mk 0x3004 0xff, regval_list.mk 0x3006 0xc3,
  regval_list.mk 0x300e 0x58, regval_list.mk 0x302e 0x00, regval_list.mk 0x4300 0x03, regval_list.mk 0x501f 0x02,
  regval_list.mk 0x3b00 0x83, regval_list.mk 0x3b00 0x00, regval_list.mk 0x3016 0x02, regval_list.mk 0x4713 0x03,
  regval_list.mk 0x4407 0x04, regval_list.mk 0x440e 0x00, regval_list.mk 0x460b 0x37, regval_list.mk 0x460c 0x20,
  regval_list.mk 0x4837 0x16, regval_list.mk 0x3824 0x04, regval_list.mk 0x5000 0xa7, regval_list.mk 0x5001 0x83,
  regval_list.mk 0x501d 0x40, regval_list.mk 0x5180 0xff, regval_list.mk 0x5181 0xf2, regval_list.mk 0x5182 0x00,
  regval_list.mk 0x5183 0x14, regval_list.mk 0x5184 0x25, regval_list.mk 0x5185 0x24, regval_list.mk 0x5186 0x10,
  regval_list.mk 0x5187 0x12, regval_list.mk 0x5188 0x10, regval_list.mk 0x5189 0x74, regval_list.mk 0x518a 0x5e,
  regval_list.mk 0x518b 0xac, regval_list.mk 0x518c 0x83, regval_list.mk 0x518d 0x3b, regval_list.mk 0x518e 0x35,
  regval_list.mk 0x518f 0x4f, regval_list.mk 0x5190 0x42, regval_list.mk 0x5191 0xf8, regval_list.mk 0x5192 0x04,
  regval_list.mk 0x5193 0xf0, regval_list.mk 0x5194 0xf0, regval_list.mk 0x5195 0xf0, regval_list.mk 0x5196 0x03,
  regval_list.mk 0x5197 0x01, regval_list.mk 0x5198 0x04, regval_list.mk 0x5199 0x87, regval_list.mk 0x519a 0x04,
  regval_list.mk 0x519b 0x00, regval_list.mk 0x519c 0x07, regval_list.mk 0x519d 0x56, regval_list.mk 0x519e 0x38,
  regval_list.mk 0x5381 0x1e, regval_list.mk 0x5382 0x5b, regval_list.mk 0x5383 0x08, regval_list.mk 0x5384 0x0a,
  regval_list.mk 0x5385 0x7e, regval_list.mk 0x5386 0x88, regval_list.mk 0x5387 0x7c, regval_list.mk 0x5388 0x6c,
  regval_list.mk 0x5389 0x10, regval_list.mk 0x538a 0x01, regval_list.mk 0x538b 0x98, regval_list.mk 0x5300 0x08,
  regval_list.mk 0x5301 0x30, regval_list.mk 0x5302 0x10, regval_list.mk 0x5303 0x00, regval_list.mk 0x5304 0x08,
  regval_list.mk 0x5305 0x30, regval_list.mk 0x5306 0x08, regval_list.mk 0x5307 0x16, regval_list.mk 0x5309 0x08,
  regval_list.mk 0x530a 0x30, regval_list.mk 0x530b 0x04, regval_list.mk 0x530c 0x06, regval_list.mk 0x5480 0x01,
  regval_list.mk 0x5481 0x08, regval_list.mk 0x5482 0x14, regval_list.mk 0x5483 0x28, regval_list.mk 0x5484 0x51,
  regval_list.mk 0x5485 0x65, regval_list.mk 0x5486 0x71, regval_list.mk 0x5487 0x7d, regval_list.mk 0x5488 0x87,
  regval_list.mk 0x5489 0x91, regval_list.mk 0x548a 0x9a, regval_list.mk 0x548b 0xaa, regval_list.mk 0x548c 0xb8,
  regval_list.mk 0x548d 0xcd, regval_list.mk 0x548e 0xdd, regval_list.mk 0x548f 0xea, regval_list.mk 0x5490 0x1d,
  regval_list.mk 0x5580 0x06, regval_list.mk 0x5583 0x40, regval_list.mk 0x5584 0x10, regval_list.mk 0x5589 0x10,
  regval_list.mk 0x558a 0x00, regval_list.mk 0x558b 0xf8, regval_list.mk 0x5800 0x23, regval_list.mk 0x5801 0x15,
  regval_list.mk 0x5802 0x10, regval_list.mk 0x5803 0x10, regval_list.mk 0x5804 0x15, regval_list.mk 0x5805 0x23,
  regval_list.mk 0x5806 0x0c, regval_list.mk 0x5807 0x08, regval_list.mk 0x5808 0x05, regval_list.mk 0x5809 0x05,
  regval_list.mk 0x580a 0x08, regval_list.mk 0x580b 0x0c, regval_list.mk 0x580c 0x07, regval_list.mk 0x580d 0x03,
  regval_list.mk 0x580e 0x00, regval_list.mk 0x580f 0x00, regval_list.mk 0x5810 0x03, regval_list.mk 0x5811 0x07,
  regval_list.mk 0x5812 0x07, regval_list.mk 0x5813 0x03, regval_list.mk 0x5814 0x00, regval_list.mk 0x5815 0x00,
  regval_list.mk 0x5816 0x03, regval_list.mk 0x5817 0x07, regval_list.mk 0x5818 0x0b, regval_list.mk 0x5819 0x08,
  regval_list.mk 0x581a 0x05, regval_list.mk 0x581b 0x05, regval_list.mk 0x581c 0x07, regval_list.mk 0x581d 0x0b,
  regval_list.mk 0x581e 0x2a, regval_list.mk 0x581f 0x16, regval_list.mk 0x5820 0x11, regval_list.mk 0x5821 0x11,
  regval_list.mk 0x5822 0x15, regval_list.mk 0x5823 0x29, regval_list.mk 0x5824 0xbf, regval_list.mk 0x5825 0xaf,
  regval_list.mk 0x5826 0x9f, regval_list.mk 0x5827 0xaf, regval_list.mk 0x5828 0xdf, regval_list.mk 0x5829 0x6f,
  regval_list.mk 0x582a 0x8e, regval_list.mk 0x582b 0xab, regval_list.mk 0x582c 0x9e, regval_list.mk 0x582d 0x7f,
  regval_list.mk 0x582e 0x4f, regval_list.mk 0x582f 0x89, regval_list.mk 0x5830 0x86, regval_list.mk 0x5831 0x98,
  regval_list.mk 0x5832 0x6f, regval_list.mk 0x5833 0x4f, regval_list.mk 0x5834 0x6e, regval_list.mk 0x5835 0x7b,
  regval_list.mk 0x5836 0x7e, regval_list.mk 0x5837 0x6f, regval_list.mk 0x5838 0xde, regval_list.mk 0x5839 0xbf,
  regval_list.mk 0x583a 0x9f, regval_list.mk 0x583b 0xbf, regval_list.mk 0x583c 0xec, regval_list.mk 0x583d 0xce,
  regval_list.mk 0x5025 0x00, regval_list.mk 0x3a0f 0x30, regval_list.mk 0x3a10 0x28, regval_list.mk 0x3a1b 0x30,
  regval_list.mk 0x3a1e 0x26, regval_list.mk 0x3a11 0x60, regval_list.mk 0x3a1f 0x01, regval_list.mk 0x3008 0x02,
  regval_list.mk 0x5300 0x08, regval_list.mk 0x5301 0x30, regval_list.mk 0x5302 0x10, regval_list.mk 0x5303 0x00,
  regval_list.mk 0x5304 0x08, regval_list.mk 0x5305 0x30, regval_list.mk 0x5306 0x08, regval_list.mk 0x5307 0x16,
  regval_list.mk 0x5309 0x08, regval_list.mk 0x530a 0x30, regval_list.mk 0x530b 0x04, regval_list.mk 0x530c 0x06
]

def APB_BASE_ADDR : Nat := 0x43C00000
def REG_WIDTH_OFFSET : Nat := 0x0
def REG_HEIGHT_OFFSET : Nat := 0x4
def REG_TMR_OFFSET : Nat := 0x8
def REG_CTRL_OFFSET : Nat := 0xC
def REG_DEST_OFFSET : Nat := 0x10
def REG_SETUP_OFFSET : Nat := 0x14
def REG_FPS_OFFSET : Nat := 0x18
def REG_VER_OFFSET : Nat := 0x1C

/-! ## State -/

/-- The mapped capture registers: `struct reg_addr`.  A mapped pointer is
represented by the physical address it was mapped from. -/
structure reg_addr where
  reg_width : Nat
  reg_height : Nat
  reg_tmr : Nat
  reg_ctrl : Nat
  reg_dest : Nat
  reg_setup : Nat
  reg_fps : Nat
deriving DecidableEq, Repr

/-- The device state `struct ov5640` (the `i2c_client` back pointer is the
ambient `Env`). -/
structure ov5640 where
  addr : reg_addr
  rst_gpio : Int
  irq_gpio : Int
deriving DecidableEq, Repr

/-- What the driver does to the outside world. -/
inductive Event where
  | i2c_send (data : List Nat) (count : Nat)
  | i2c_recv (count : Nat)
  | gpio_request_one (gpio : Int)
  | gpio_set_value (gpio : Int) (value : Int)
  | msleep (msecs : Nat)
  | store (addr : Nat) (value : Int)
deriving DecidableEq, Repr

/-- The services of the kernel used by the driver.  The bus transfers are
indexed by the number of transfers made before them, so an `Env` fixes the
outcome of every transfer of a run. -/
structure Env where
  /-- Result of `i2c_master_send(client, data, count)` as the transfer number
  `xfers` of the run. -/
  i2c_master_send : (xfers : Nat) → (data : List Nat) → (count : Nat) → Int
  /-- Result of `i2c_master_recv(client, buf, count)` as the transfer number
  `xfers` of the run, with the byte left in the one-byte buffer. -/
  i2c_master_recv : (xfers : Nat) → (count : Nat) → Int × Nat
  /-- Result of `of_get_named_gpio(dev->of_node, "ov,rst-gpios", 0)`. -/
  of_get_named_gpio : Int
  gpio_is_valid : Int → Bool
  /-- Result of `devm_gpio_request_one(dev, gpio, GPIOF_OUT_INIT_HIGH, ..)`. -/
  devm_gpio_request_one : Int → Int

/-- The static `ov5640_priv`, the number of bus transfers made so far, and the
trace of effects so far. -/
structure World where
  priv : ov5640
  xfers : Nat
  trace : List Event
deriving DecidableEq, Repr

/-- Append one effect to the trace. -/
def World.emit (w : World) (e : Event) : World :=
  { w with trace := w.trace ++ [e] }

/-! ## The driver -/

/-- `ov5640_write_reg`: one send of the 3-byte frame, no retry. -/
def ov5640_write_reg (client : Env) (reg val : Nat) (w : World) : Int × World :=
  let data : List Nat := [(reg >>> 8) % 256, (reg &&& 0xff) % 256, val % 256]
  let ret := client.i2c_master_send w.xfers data 3
  let w1 := { w.emit (Event.i2c_send data 3) with xfers := w.xfers + 1 }
  if ret < 3 then
    (if ret < 0 then ret else - EIO, w1)
  else
    (0, w1)

/-- `ov5640_read_reg`: send of the 2-byte address frame, then a 1-byte
receive.  `val` is the content of the caller's buffer before the call; the
second component of the result is its content after the call. -/
def ov5640_read_reg (client : Env) (reg : Nat) (val : Nat) (w : World) :
    Int × Nat × World :=
  let data : List Nat := [(reg >>> 8) % 256, (reg &&& 0xff) % 256]
  let ret := client.i2c_master_send w.xfers data 2
  let w1 := { w.emit (Event.i2c_send data 2) with xfers := w.xfers + 1 }
  if ret < 2 then
    (if ret < 0 then ret else - EIO, val, w1)
  else
    let r := client.i2c_master_recv w1.xfers 1
    let w2 := { w1.emit (Event.i2c_recv 1) with xfers := w1.xfers + 1 }
    if r.1 < 1 then
      (if r.1 < 0 then r.1 else - EIO, r.2, w2)
    else
      (0, r.2, w2)

/-- `ov5640_write_array`: `vals` is the array from the current pointer to its
last element.  `none` is the read past the end of the array. -/
def ov5640_write_array (client : Env) : List regval_list → World → Option (Int × World)
  | [], _ => none
  | v :: vals, w =>
    if v.reg_num != 0xffff || v.value != 0xff then
      let r := ov5640_write_reg client v.reg_num v.value w
      if r.1 < 0 then some (r.1, r.2) else ov5640_write_array client vals r.2
    else
      some (0, w)

/-- `ov5640_reset`: the reset pulse on `priv->rst_gpio`. -/
def ov5640_reset (w : World) : World :=
  let w := w.emit (Event.gpio_set_value w.priv.rst_gpio 1)
  let w := w.emit (Event.msleep 1)
  let w := w.emit (Event.gpio_set_value w.priv.rst_gpio 0)
  let w := w.emit (Event.msleep 1)
  let w := w.emit (Event.gpio_set_value w.priv.rst_gpio 1)
  w.emit (Event.msleep 5)

/-- `devm_ioremap(dev, phys, 4)`: the handle of the mapped register. -/
def devm_ioremap (phys : Nat) : Nat := phys

/-- `ov5640_init`: map the capture registers, program the default table, issue
the feature writes, configure and start the capture engine.  The function is
`void`: the result of the bulk programming is only logged and the results of
the feature writes are discarded. -/
def ov5640_init (client : Env) (w : World) : Option World :=
  let w := { w with priv := { w.priv with addr :=
    { reg_width := devm_ioremap (APB_BASE_ADDR + REG_WIDTH_OFFSET)
      reg_height := devm_ioremap (APB_BASE_ADDR + REG_HEIGHT_OFFSET)
      reg_tmr := devm_ioremap (APB_BASE_ADDR + REG_TMR_OFFSET)
      reg_ctrl := devm_ioremap (APB_BASE_ADDR + REG_CTRL_OFFSET)
      reg_dest := devm_ioremap (APB_BASE_ADDR + REG_DEST_OFFSET)
      reg_setup := devm_ioremap (APB_BASE_ADDR + REG_SETUP_OFFSET)
      reg_fps := devm_ioremap (APB_BASE_ADDR + REG_FPS_OFFSET) } } }
  /- ov5640 default init -/
  match ov5640_write_array client ov5640_default_regs_init w with
  | none => none
  | some (_retval, w) =>
    /- setting auto exposure -/
    let w := (ov5640_write_reg client 0x3503 0x00 w).2
    /- set para iso -/
    let w := (ov5640_write_reg client 0x3A19 0xF8 w).2
    /- set para antibanding -/
    let w := (ov5640_write_reg client 0x3C01 0x80 w).2
    let w := (ov5640_write_reg client 0x3C00 0x04 w).2
    /- set para exposure level -/
    let w := (ov5640_write_reg client 0x3A0F 0x28 w).2
    let w := (ov5640_write_reg client 0x3A10 0x20 w).2
    let w := (ov5640_write_reg client 0x3A11 0x51 w).2
    let w := (ov5640_write_reg client 0x3A1B 0x28 w).2
    let w := (ov5640_write_reg client 0x3A1E 0x20 w).2
    let w := (ov5640_write_reg client 0x3A1F 0x10 w).2
    /- set para white balance -/
    let w := (ov5640_write_reg client 0x3406 0x00 w).2
    let w := w.emit (Event.store w.priv.addr.reg_ctrl 0x1)
    let w := w.emit (Event.store w.priv.addr.reg_ctrl 0x0)
    let w := w.emit (Event.store w.priv.addr.reg_width 0x01400280)
    let w := w.emit (Event.store w.priv.addr.reg_height 0x007801E0)
    let w := w.emit (Event.store w.priv.addr.reg_tmr 0x000003E8)
    let w := w.emit (Event.store w.priv.addr.reg_dest 0x18000000)
    let w := w.emit (Event.store w.priv.addr.reg_setup 0x0060F380)
    let w := w.emit (Event.store w.priv.addr.reg_fps 0x18)
    let w := w.emit (Event.store w.priv.addr.reg_ctrl 0x2)
    some w

/-- `ov5640_probe` as compiled: the blocks under `#if 0` (interrupt pin,
chip identification, the call of `ov5640_init`, the `ERR_NODEV` exit) are not
part of the function. -/
def ov5640_probe (client : Env) (w : World) : Int × World :=
  /- request reset pin -/
  let w := { w with priv := { w.priv with rst_gpio := client.of_get_named_gpio } }
  if !client.gpio_is_valid w.priv.rst_gpio then
    (-EINVAL, w)
  else
    let retval := client.devm_gpio_request_one w.priv.rst_gpio
    let w := w.emit (Event.gpio_request_one w.priv.rst_gpio)
    if retval < 0 then
      (retval, w)
    else
      let w := ov5640_reset w
      (0, w)

/-! ## Observations on traces -/

/-- The frames sent on the serial bus, in order. -/
def sends : List Event → List (List Nat)
  | [] => []
  | Event.i2c_send data _ :: es => data :: sends es
  | _ :: es => sends es

/-- The number of serial bus transfers (sends and receives). -/
def busTransfers : List Event → Nat
  | [] => 0
  | Event.i2c_send _ _ :: es => busTransfers es + 1
  | Event.i2c_recv _ :: es => busTransfers es + 1
  | _ :: es => busTransfers es

/-- The stores to mapped registers, in order. -/
def stores : List Event → List (Nat × Int)
  | [] => []
  | Event.store a v :: es => (a, v) :: stores es
  | _ :: es => stores es

/-- The values written to a reset line, in order. -/
def lineWrites : List Event → List Int
  | [] => []
  | Event.gpio_set_value _ v :: es => v :: lineWrites es
  | _ :: es => lineWrites es

/-- The sleeps, in order. -/
def delays : List Event → List Nat
  | [] => []
  | Event.msleep n :: es => n :: delays es
  | _ :: es => delays es

/-- The 3-byte frame `ov5640_write_reg` builds for one table entry. -/
def writeFrame (e : regval_list) : List Nat :=
  [(e.reg_num >>> 8) % 256, (e.reg_num &&& 0xff) % 256, e.value % 256]

/-- The bus event of writing one table entry. -/
def writeEvent (e : regval_list) : Event :=
  Event.i2c_send (writeFrame e) 3

/-- The frames of the eleven feature writes of `ov5640_init`, in source order:
0x3503, 0x3A19, 0x3C01, 0x3C00, 0x3A0F, 0x3A10, 0x3A11, 0x3A1B, 0x3A1E, 0x3A1F,
0x3406. -/
def featureFrames : List (List Nat) :=
  [[0x35, 0x03, 0x00], [0x3A, 0x19, 0xF8], [0x3C, 0x01, 0x80], [0x3C, 0x00, 0x04],
   [0x3A, 0x0F, 0x28], [0x3A, 0x10, 0x20], [0x3A, 0x11, 0x51], [0x3A, 0x1B, 0x28],
   [0x3A, 0x1E, 0x20], [0x3A, 0x1F, 0x10], [0x34, 0x06, 0x00]]

/-- The stores of `ov5640_init` to the capture registers, in source order. -/
def captureStores : List (Nat × Int) :=
  [(APB_BASE_ADDR + REG_CTRL_OFFSET, 0x1), (APB_BASE_ADDR + REG_CTRL_OFFSET, 0x0),
   (APB_BASE_ADDR + REG_WIDTH_OFFSET, 0x01400280),
   (APB_BASE_ADDR + REG_HEIGHT_OFFSET, 0x007801E0),
   (APB_BASE_ADDR + REG_TMR_OFFSET, 0x000003E8),
   (APB_BASE_ADDR + REG_DEST_OFFSET, 0x18000000),
   (APB_BASE_ADDR + REG_SETUP_OFFSET, 0x0060F380),
   (APB_BASE_ADDR + REG_FPS_OFFSET, 0x18), (APB_BASE_ADDR + REG_CTRL_OFFSET, 0x2)]

/-- The bus events of the eleven feature writes. -/
def featureEvents : List Event :=
  featureFrames.map (fun f => Event.i2c_send f 3)

/-- The store events of `ov5640_init`. -/
def captureEvents : List Event :=
  captureStores.map (fun p => Event.store p.1 p.2)

/-- The capture register handles `ov5640_init` puts in `priv->addr`. -/
def mappedRegs : reg_addr :=
  { reg_width := devm_ioremap (APB_BASE_ADDR + REG_WIDTH_OFFSET)
    reg_height := devm_ioremap (APB_BASE_ADDR + REG_HEIGHT_OFFSET)
    reg_tmr := devm_ioremap (APB_BASE_ADDR + REG_TMR_OFFSET)
    reg_ctrl := devm_ioremap (APB_BASE_ADDR + REG_CTRL_OFFSET)
    reg_dest := devm_ioremap (APB_BASE_ADDR + REG_DEST_OFFSET)
    reg_setup := devm_ioremap (APB_BASE_ADDR + REG_SETUP_OFFSET)
    reg_fps := devm_ioremap (APB_BASE_ADDR + REG_FPS_OFFSET) }

/-! ## Concrete environments and inputs used to evaluate the driver -/

/-- A world in which nothing has happened yet. -/
def world0 : World :=
  { priv := { addr := ⟨0, 0, 0, 0, 0, 0, 0⟩, rst_gpio := 0, irq_gpio := 0 }
    xfers := 0
    trace := [] }

/-- A platform with reset line 54 where every send transfers `sendRet` bytes
(or fails with `sendRet` when negative) and every receive yields `recv`. -/
def envConst (sendRet : Int) (recv : Int × Nat) : Env :=
  { i2c_master_send := fun _ _ _ => sendRet
    i2c_master_recv := fun _ _ => recv
    of_get_named_gpio := 54
    gpio_is_valid := fun g => decide (0 ≤ g)
    devm_gpio_request_one := fun _ => 0 }

/-- A platform whose bus accepts every send; the first receive (transfer 1)
yields the byte 0x56 and every other receive the byte 0x40. -/
def envIdent : Env :=
  { i2c_master_send := fun _ _ _ => 3
    i2c_master_recv := fun n _ => if n = 1 then (1, 0x56) else (1, 0x40)
    of_get_named_gpio := 54
    gpio_is_valid := fun g => decide (0 ≤ g)
    devm_gpio_request_one := fun _ => 0 }

/-- The platform of `envIdent` with another sensor on the bus: the first
receive yields 0x56 and every other receive 0x41. -/
def envOtherChip : Env :=
  { envIdent with i2c_master_recv := fun n _ => if n = 1 then (1, 0x56) else (1, 0x41) }

/-! ## Basic facts about traces -/

theorem sends_append (a b : List Event) : sends (a ++ b) = sends a ++ sends b := by
  induction a with
  | nil => rfl
  | cons e es ih => cases e <;> simp [sends, ih]

theorem busTransfers_append (a b : List Event) :
    busTransfers (a ++ b) = busTransfers a + busTransfers b := by
  induction a with
  | nil => simp [busTransfers]
  | cons e es ih => cases e <;> simp [busTransfers, ih] <;> omega

theorem stores_append (a b : List Event) : stores (a ++ b) = stores a ++ stores b := by
  induction a with
  | nil => rfl
  | cons e es ih => cases e <;> simp [stores, ih]

theorem lineWrites_append (a b : List Event) :
    lineWrites (a ++ b) = lineWrites a ++ lineWrites b := by
  induction a with
  | nil => rfl
  | cons e es ih => cases e <;> simp [lineWrites, ih]

theorem delays_append (a b : List Event) : delays (a ++ b) = delays a ++ delays b := by
  induction a with
  | nil => rfl
  | cons e es ih => cases e <;> simp [delays, ih]

theorem sends_map_writeEvent (l : List regval_list) :
    sends (l.map writeEvent) = l.map writeFrame := by
  induction l with
  | nil => rfl
  | cons e es ih => simp [sends, writeEvent, ih]

theorem stores_map_writeEvent (l : List regval_list) : stores (l.map writeEvent) = [] := by
  induction l with
  | nil => rfl
  | cons e es ih => simp [stores, writeEvent, ih]

/-- A 16-bit address and an 8-bit value are unchanged by the conversions to
`unsigned char` in the frame. -/
theorem frame_bytes (reg val : Nat) (hreg : reg < 65536) (hval : val < 256) :
    [(reg >>> 8) % 256, (reg &&& 0xff) % 256, val % 256] = [reg >>> 8, reg &&& 0xff, val] := by
  have h1 : reg >>> 8 < 256 := by
    rw [Nat.shiftRight_eq_div_pow]; omega
  have h2 : reg &&& 0xff < 256 := Nat.lt_succ_of_le Nat.and_le_right
  simp [Nat.mod_eq_of_lt h1, Nat.mod_eq_of_lt h2, Nat.mod_eq_of_lt hval]

/-- The world after `ov5640_write_reg`, whatever the send returned. -/
theorem ov5640_write_reg_world (client : Env) (reg val : Nat) (w : World) :
    (ov5640_write_reg client reg val w).2 =
      { w with xfers := w.xfers + 1
               trace := w.trace ++
                 [Event.i2c_send [(reg >>> 8) % 256, (reg &&& 0xff) % 256, val % 256] 3] } := by
  unfold ov5640_write_reg
  simp only [World.emit]
  split <;> rfl

/-- The return value of `ov5640_write_reg` in terms of the send result. -/
theorem ov5640_write_reg_ret (client : Env) (reg val : Nat) (w : World) :
    (ov5640_write_reg client reg val w).1 =
      let ret := client.i2c_master_send w.xfers
        [(reg >>> 8) % 256, (reg &&& 0xff) % 256, val % 256] 3
      if ret < 3 then (if ret < 0 then ret else - EIO) else 0 := by
  unfold ov5640_write_reg
  simp only
  split <;> rfl

/-! ## Single register transactions -/

/-- C3: for a 16-bit address `reg`, an 8-bit value `val` and any result `r` of
the send, `ov5640_write_reg` makes exactly one bus transfer, the send of the
3-byte frame `[reg >> 8, reg & 0xFF, val]`, and returns 0 when `r >= 3`, `r`
when `r < 0`, and `-EIO` when `0 <= r < 3`. -/
theorem ov5640_write_reg_spec (client : Env) (reg val : Nat) (w : World) (r : Int)
    (hreg : reg < 65536) (hval : val < 256)
    (hr : client.i2c_master_send w.xfers [reg >>> 8, reg &&& 0xff, val] 3 = r) :
    (ov5640_write_reg client reg val w).2.trace
        = w.trace ++ [Event.i2c_send [reg >>> 8, reg &&& 0xff, val] 3] ∧
    (ov5640_write_reg client reg val w).2.xfers = w.xfers + 1 ∧
    (3 ≤ r → (ov5640_write_reg client reg val w).1 = 0) ∧
    (r < 0 → (ov5640_write_reg client reg val w).1 = r) ∧
    (0 ≤ r → r < 3 → (ov5640_write_reg client reg val w).1 = - EIO) := by
  rw [ov5640_write_reg_world, ov5640_write_reg_ret, frame_bytes reg val hreg hval, hr]
  refine ⟨rfl, rfl, ?_, ?_, ?_⟩
  · intro h; simp only; rw [if_neg (by omega)]
  · intro h; simp only; rw [if_pos (by omega), if_pos h]
  · intro h0 h3; simp only; rw [if_pos h3, if_neg (by omega)]

/-- Witness of C3 at address 0x3503, value 0, on a bus that accepts one byte
only (a short transfer). -/
theorem ov5640_write_reg_spec_witness :
    (ov5640_write_reg (envConst 1 (1, 0)) 0x3503 0x00 world0).2.trace
        = [Event.i2c_send [0x35, 0x03, 0x00] 3] ∧
    (ov5640_write_reg (envConst 1 (1, 0)) 0x3503 0x00 world0).1 = -5 :=
  have h := ov5640_write_reg_spec (envConst 1 (1, 0)) 0x3503 0x00 world0 1
    (by decide) (by decide) rfl
  ⟨h.1, h.2.2.2.2 (by decide) (by decide)⟩

/-- The address bytes of a 16-bit register address are unchanged by the
conversions to `unsigned char`. -/
theorem addr_bytes (reg : Nat) (hreg : reg < 65536) :
    [(reg >>> 8) % 256, (reg &&& 0xff) % 256] = [reg >>> 8, reg &&& 0xff] := by
  have h := frame_bytes reg 0 hreg (by decide)
  simp only [List.cons.injEq] at h
  simp [h.1, h.2.1]

/-- C4: for a 16-bit address `reg`, `ov5640_read_reg` first sends the 2-byte
frame `[reg >> 8, reg & 0xFF]`.  If that send returns `s < 2` the function
returns `s` when `s < 0` and `-EIO` otherwise, with no receive (and the
caller's buffer untouched).  Otherwise it makes exactly one 1-byte receive; if
the receive returns `r < 1` the function returns `r` when `r < 0` and `-EIO`
when `r = 0`, else it returns 0 and the output value is the received byte. -/
theorem ov5640_read_reg_spec (client : Env) (reg val : Nat) (w : World) (s : Int)
    (hreg : reg < 65536)
    (hs : client.i2c_master_send w.xfers [reg >>> 8, reg &&& 0xff] 2 = s) :
    (s < 2 →
      (ov5640_read_reg client reg val w).1 = (if s < 0 then s else - EIO) ∧
      (ov5640_read_reg client reg val w).2.1 = val ∧
      (ov5640_read_reg client reg val w).2.2.trace
        = w.trace ++ [Event.i2c_send [reg >>> 8, reg &&& 0xff] 2]) ∧
    (2 ≤ s → ∀ (r : Int) (b : Nat), client.i2c_master_recv (w.xfers + 1) 1 = (r, b) →
      (ov5640_read_reg client reg val w).2.2.trace
        = w.trace ++ [Event.i2c_send [reg >>> 8, reg &&& 0xff] 2, Event.i2c_recv 1] ∧
      (r < 0 → (ov5640_read_reg client reg val w).1 = r) ∧
      (r = 0 → (ov5640_read_reg client reg val w).1 = - EIO) ∧
      (1 ≤ r → (ov5640_read_reg client reg val w).1 = 0 ∧
        (ov5640_read_reg client reg val w).2.1 = b)) := by
  unfold ov5640_read_reg
  simp only [World.emit, addr_bytes reg hreg, hs]
  constructor
  · intro h
    rw [if_pos h]
    exact ⟨rfl, rfl, rfl⟩
  · intro h r b hrecv
    rw [if_neg (by omega), hrecv]
    simp only
    by_cases h1 : r < 1
    · rw [if_pos h1]
      refine ⟨by simp, ?_, ?_, ?_⟩
      · intro h0; simp [h0]
      · intro h0; subst h0; simp
      · intro h0; omega
    · rw [if_neg h1]
      refine ⟨by simp, ?_, ?_, ?_⟩
      · intro h0; omega
      · intro h0; omega
      · intro _; exact ⟨rfl, rfl⟩

/-- Witness of C4: reading the high identity register on a bus that accepts the
address frame and answers with the byte 0x56. -/
theorem ov5640_read_reg_spec_witness :
    (ov5640_read_reg (envConst 2 (1, 0x56)) REG_CHIP_ID_HIGH 0 world0).2.2.trace
        = [Event.i2c_send [0x30, 0x0A] 2, Event.i2c_recv 1] ∧
    (ov5640_read_reg (envConst 2 (1, 0x56)) REG_CHIP_ID_HIGH 0 world0).1 = 0 ∧
    (ov5640_read_reg (envConst 2 (1, 0x56)) REG_CHIP_ID_HIGH 0 world0).2.1 = 0x56 :=
  have h := (ov5640_read_reg_spec (envConst 2 (1, 0x56)) REG_CHIP_ID_HIGH 0 world0 2
    (by decide) rfl).2 (by decide) 1 0x56 rfl
  ⟨h.1, h.2.2.2 (by decide)⟩

/-! ## Reset pulse -/

/-- C10: for every reset line, `ov5640_reset` appends exactly the events
set 1, sleep 1 ms, set 0, sleep 1 ms, set 1, sleep 5 ms to the trace, touching
nothing else: the line values written are `[1, 0, 1]` and the delays are
`[1, 1, 5]` milliseconds. -/
theorem ov5640_reset_trace (w : World) :
    (ov5640_reset w).trace = w.trace ++
      [Event.gpio_set_value w.priv.rst_gpio 1, Event.msleep 1,
       Event.gpio_set_value w.priv.rst_gpio 0, Event.msleep 1,
       Event.gpio_set_value w.priv.rst_gpio 1, Event.msleep 5] ∧
    lineWrites (ov5640_reset w).trace = lineWrites w.trace ++ [1, 0, 1] ∧
    delays (ov5640_reset w).trace = delays w.trace ++ [1, 1, 5] ∧
    (ov5640_reset w).priv = w.priv ∧ (ov5640_reset w).xfers = w.xfers := by
  have h : (ov5640_reset w).trace = w.trace ++
      [Event.gpio_set_value w.priv.rst_gpio 1, Event.msleep 1,
       Event.gpio_set_value w.priv.rst_gpio 0, Event.msleep 1,
       Event.gpio_set_value w.priv.rst_gpio 1, Event.msleep 5] := by
    simp [ov5640_reset, World.emit]
  refine ⟨h, ?_, ?_, rfl, rfl⟩
  · rw [h, lineWrites_append]; rfl
  · rw [h, delays_append]; rfl

/-! ## Probe -/

/-- The outcome of `ov5640_probe` on a valid reset line. -/
theorem ov5640_probe_valid (client : Env) (w : World)
    (hv : client.gpio_is_valid client.of_get_named_gpio = true) :
    ov5640_probe client w =
      if client.devm_gpio_request_one client.of_get_named_gpio < 0 then
        (client.devm_gpio_request_one client.of_get_named_gpio,
          { w with priv := { w.priv with rst_gpio := client.of_get_named_gpio }
                   trace := w.trace ++ [Event.gpio_request_one client.of_get_named_gpio] })
      else
        (0, { w with priv := { w.priv with rst_gpio := client.of_get_named_gpio }
                     trace := w.trace ++
                       [Event.gpio_request_one client.of_get_named_gpio,
                        Event.gpio_set_value client.of_get_named_gpio 1, Event.msleep 1,
                        Event.gpio_set_value client.of_get_named_gpio 0, Event.msleep 1,
                        Event.gpio_set_value client.of_get_named_gpio 1, Event.msleep 5] }) := by
  unfold ov5640_probe
  simp only [hv, Bool.not_true, Bool.false_eq_true, if_false]
  split
  · rfl
  · simp [ov5640_reset, World.emit]

/-- C7: when the reset line obtained for the device is not valid,
`ov5640_probe` returns `-EINVAL` (-22) and its trace is the trace it started
with: no bus transfer, no reset-line request or write, no sleep, no store to a
capture register. -/
theorem ov5640_probe_invalid_reset_line (client : Env) (w : World)
    (hv : client.gpio_is_valid client.of_get_named_gpio = false) :
    (ov5640_probe client w).1 = -EINVAL ∧
    (ov5640_probe client w).1 = -22 ∧
    (ov5640_probe client w).2.trace = w.trace ∧
    (ov5640_probe client w).2.xfers = w.xfers ∧
    busTransfers (ov5640_probe client w).2.trace = busTransfers w.trace ∧
    lineWrites (ov5640_probe client w).2.trace = lineWrites w.trace ∧
    stores (ov5640_probe client w).2.trace = stores w.trace := by
  have h : ov5640_probe client w =
      (-EINVAL, { w with priv := { w.priv with rst_gpio := client.of_get_named_gpio } }) := by
    unfold ov5640_probe
    simp [hv]
  rw [h]
  exact ⟨rfl, rfl, rfl, rfl, rfl, rfl, rfl⟩

/-- Witness of C7: a platform whose reset line lookup fails with -2. -/
theorem ov5640_probe_invalid_reset_line_witness :
    (ov5640_probe { envConst 3 (1, 0) with of_get_named_gpio := -2 } world0).1 = -22 ∧
    (ov5640_probe { envConst 3 (1, 0) with of_get_named_gpio := -2 } world0).2.trace = [] :=
  have h := ov5640_probe_invalid_reset_line
    { envConst 3 (1, 0) with of_get_named_gpio := -2 } world0 (by decide)
  ⟨h.2.1, h.2.2.1⟩

/-- C8, as stated, fails: on a platform with a valid reset line and a bus on
which every transfer would succeed, `ov5640_probe` returns 0 after the reset
pulse alone, having made no bus transfer (no identification read, no table or
feature write) and no store to a capture register. -/
theorem ov5640_probe_ready_without_bringup :
    (ov5640_probe (envConst 3 (1, 0x56)) world0).1 = 0 ∧
    busTransfers (ov5640_probe (envConst 3 (1, 0x56)) world0).2.trace = 0 ∧
    sends (ov5640_probe (envConst 3 (1, 0x56)) world0).2.trace = [] ∧
    stores (ov5640_probe (envConst 3 (1, 0x56)) world0).2.trace = [] := by
  decide

/-- C8, amended: `ov5640_probe` returns 0 exactly when the reset line is valid
and its request did not fail, and every run that returns 0 has performed the
line request followed by the complete reset pulse and nothing else: no bus
transfer and no store to a capture register (identification, bulk programming,
feature writes and capture configuration are compiled out). -/
theorem ov5640_probe_success_iff (client : Env) (w : World) :
    ((ov5640_probe client w).1 = 0 ↔
      (client.gpio_is_valid client.of_get_named_gpio = true ∧
        0 ≤ client.devm_gpio_request_one client.of_get_named_gpio)) ∧
    ((ov5640_probe client w).1 = 0 →
      (ov5640_probe client w).2.trace = w.trace ++
        [Event.gpio_request_one client.of_get_named_gpio,
         Event.gpio_set_value client.of_get_named_gpio 1, Event.msleep 1,
         Event.gpio_set_value client.of_get_named_gpio 0, Event.msleep 1,
         Event.gpio_set_value client.of_get_named_gpio 1, Event.msleep 5] ∧
      busTransfers (ov5640_probe client w).2.trace = busTransfers w.trace ∧
      stores (ov5640_probe client w).2.trace = stores w.trace) := by
  cases hv : client.gpio_is_valid client.of_get_named_gpio with
  | false =>
    have h : ov5640_probe client w =
        (-EINVAL, { w with priv := { w.priv with rst_gpio := client.of_get_named_gpio } }) := by
      unfold ov5640_probe
      simp [hv]
    rw [h]
    simp [EINVAL]
  | true =>
    rw [ov5640_probe_valid client w hv]
    by_cases hr : client.devm_gpio_request_one client.of_get_named_gpio < 0
    · rw [if_pos hr]
      have hne : client.devm_gpio_request_one client.of_get_named_gpio ≠ 0 := by omega
      have hnle : ¬ 0 ≤ client.devm_gpio_request_one client.of_get_named_gpio := by omega
      simp [hne, hnle]
    · rw [if_neg hr]
      have hle : 0 ≤ client.devm_gpio_request_one client.of_get_named_gpio := by omega
      refine ⟨by simp [hle], fun _ => ⟨rfl, ?_, ?_⟩⟩
      · simp only [busTransfers_append]; rfl
      · simp only [stores_append]; simp [stores]

/-- Witness of the amended C8 on a platform with reset line 54. -/
theorem ov5640_probe_success_iff_witness :
    (ov5640_probe (envConst 3 (1, 0x56)) world0).2.trace =
      [Event.gpio_request_one 54,
       Event.gpio_set_value 54 1, Event.msleep 1,
       Event.gpio_set_value 54 0, Event.msleep 1,
       Event.gpio_set_value 54 1, Event.msleep 5] :=
  ((ov5640_probe_success_iff (envConst 3 (1, 0x56)) world0).2 (by decide)).1

/-! ## Bulk programming -/

/-- One step of the scan at an entry that is not the sentinel pair. -/
theorem ov5640_write_array_cons (client : Env) (v : regval_list) (vals : List regval_list)
    (w : World) (hv : ¬ (v.reg_num = 0xFFFF ∧ v.value = 0xFF)) :
    ov5640_write_array client (v :: vals) w =
      if (ov5640_write_reg client v.reg_num v.value w).1 < 0 then
        some ((ov5640_write_reg client v.reg_num v.value w).1,
          (ov5640_write_reg client v.reg_num v.value w).2)
      else ov5640_write_array client vals (ov5640_write_reg client v.reg_num v.value w).2 := by
  have hc : (v.reg_num != 0xffff || v.value != 0xff) = true := by
    simp only [Bool.or_eq_true, bne_iff_ne, ne_eq]
    by_cases h1 : v.reg_num = 0xffff
    · right; intro h2; exact hv ⟨h1, h2⟩
    · left; exact h1
  rw [ov5640_write_array, if_pos hc]

/-- The scan ends with 0 at the sentinel pair without a write. -/
theorem ov5640_write_array_sentinel (client : Env) (vals : List regval_list) (w : World) :
    ov5640_write_array client (regval_list.mk 0xFFFF 0xFF :: vals) w = some (0, w) := by
  rw [ov5640_write_array]
  simp

/-- The return value of a write whose send transfers all three bytes. -/
theorem ov5640_write_reg_ok (client : Env) (e : regval_list) (w : World)
    (h : 3 ≤ client.i2c_master_send w.xfers (writeFrame e) 3) :
    (ov5640_write_reg client e.reg_num e.value w).1 = 0 := by
  rw [ov5640_write_reg_ret]
  simp only
  rw [if_neg]
  simpa [writeFrame] using h

/-- The return value of a write whose send transfers fewer than three bytes. -/
theorem ov5640_write_reg_fail (client : Env) (e : regval_list) (w : World)
    (h : client.i2c_master_send w.xfers (writeFrame e) 3 < 3) :
    (ov5640_write_reg client e.reg_num e.value w).1 =
      (if client.i2c_master_send w.xfers (writeFrame e) 3 < 0
        then client.i2c_master_send w.xfers (writeFrame e) 3 else - EIO) ∧
    (ov5640_write_reg client e.reg_num e.value w).1 < 0 := by
  rw [ov5640_write_reg_ret]
  simp only
  have h' : client.i2c_master_send w.xfers
      [(e.reg_num >>> 8) % 256, (e.reg_num &&& 0xff) % 256, e.value % 256] 3 < 3 := h
  rw [if_pos h']
  refine ⟨rfl, ?_⟩
  split
  · assumption
  · decide

/-- While the writes succeed, the scan walks over a run of entries none of
which is the sentinel pair, writing each in order. -/
theorem ov5640_write_array_prefix (client : Env) :
    ∀ (pre rest : List regval_list) (w : World),
      (∀ e ∈ pre, ¬ (e.reg_num = 0xFFFF ∧ e.value = 0xFF)) →
      (∀ i e, pre[i]? = some e → 3 ≤ client.i2c_master_send (w.xfers + i) (writeFrame e) 3) →
      ov5640_write_array client (pre ++ rest) w =
        ov5640_write_array client rest
          { w with xfers := w.xfers + pre.length
                   trace := w.trace ++ pre.map writeEvent } := by
  intro pre
  induction pre with
  | nil => intro rest w _ _; simp
  | cons v vs ih =>
    intro rest w hns hok
    have hv := hns v (List.mem_cons_self v vs)
    have h0 : 3 ≤ client.i2c_master_send w.xfers (writeFrame v) 3 := by
      simpa using hok 0 v (by simp)
    rw [List.cons_append, ov5640_write_array_cons client v (vs ++ rest) w hv,
      ov5640_write_reg_ok client v w h0, if_neg (by decide), ov5640_write_reg_world,
      ih rest _ (fun e he => hns e (List.mem_cons_of_mem v he))]
    · simp [writeEvent, writeFrame, Nat.add_assoc, Nat.add_comm 1]
    · intro i e hie
      have := hok (i + 1) e (by simpa using hie)
      simpa [Nat.add_assoc, Nat.add_comm 1] using this

/-- Splitting a table at an index that holds an entry. -/
theorem split_at_index (vals : List regval_list) (n : Nat) (e : regval_list)
    (he : vals[n]? = some e) :
    vals = vals.take n ++ e :: vals.drop (n + 1) ∧ vals.take (n + 1) = vals.take n ++ [e] ∧
      (vals.take n).length = n := by
  obtain ⟨hn, hget⟩ := List.getElem?_eq_some.mp he
  refine ⟨?_, ?_, ?_⟩
  · rw [← hget, ← List.drop_eq_getElem_cons hn, List.take_append_drop]
  · rw [List.take_succ, he]; rfl
  · rw [List.length_take]; omega

/-- The scan stops at the first write that fails: the entries before index `n`
are written with success, the write of entry `n` fails, and its return value is
the return value of the scan. -/
theorem ov5640_write_array_fail_at (client : Env) (vals : List regval_list) (n : Nat)
    (e : regval_list) (w : World)
    (hns : ∀ x ∈ vals.take (n + 1), ¬ (x.reg_num = 0xFFFF ∧ x.value = 0xFF))
    (hok : ∀ i x, i < n → vals[i]? = some x →
      3 ≤ client.i2c_master_send (w.xfers + i) (writeFrame x) 3)
    (he : vals[n]? = some e)
    (hfail : client.i2c_master_send (w.xfers + n) (writeFrame e) 3 < 3) :
    ov5640_write_array client vals w =
      some ((ov5640_write_reg client e.reg_num e.value
              { w with xfers := w.xfers + n
                       trace := w.trace ++ (vals.take n).map writeEvent }).1,
            { w with xfers := w.xfers + (n + 1)
                     trace := w.trace ++ (vals.take (n + 1)).map writeEvent }) := by
  obtain ⟨hsplit, htake, hlen⟩ := split_at_index vals n e he
  have hpre : ∀ x ∈ vals.take n, ¬ (x.reg_num = 0xFFFF ∧ x.value = 0xFF) := by
    intro x hx
    exact hns x (by rw [htake]; exact List.mem_append_left _ hx)
  have hne : ¬ (e.reg_num = 0xFFFF ∧ e.value = 0xFF) :=
    hns e (by rw [htake]; simp)
  have hok' : ∀ i x, (vals.take n)[i]? = some x →
      3 ≤ client.i2c_master_send (w.xfers + i) (writeFrame x) 3 := by
    intro i x hix
    have hi : i < n := by
      have := (List.getElem?_eq_some.mp hix).1
      rw [hlen] at this; exact this
    rw [List.getElem?_take_of_lt hi] at hix
    exact hok i x hi hix
  have hstep := ov5640_write_array_prefix client (vals.take n) (e :: vals.drop (n + 1)) w
    hpre hok'
  rw [← hsplit, hlen] at hstep
  rw [hstep, ov5640_write_array_cons client e _ _ hne]
  have hf := ov5640_write_reg_fail client e
    { w with xfers := w.xfers + n, trace := w.trace ++ (vals.take n).map writeEvent } hfail
  rw [if_pos hf.2, ov5640_write_reg_world, htake]
  simp [writeEvent, writeFrame, Nat.add_assoc]

/-- C1: for every register table whose first sentinel pair (0xFFFF, 0xFF) is at
index `k` and every channel on which all sends succeed, `ov5640_write_array`
returns 0 after exactly `k` bus transfers, the writes of entries `0 .. k-1` in
table order.  Only the full pair ends the scan: the first `k` entries may hold
0xFFFF with another value or 0xFF with another address, and are written. -/
theorem ov5640_write_array_success (client : Env) (vals : List regval_list) (k : Nat)
    (w : World)
    (hs : vals[k]? = some (regval_list.mk 0xFFFF 0xFF))
    (hfirst : ∀ e ∈ vals.take k, ¬ (e.reg_num = 0xFFFF ∧ e.value = 0xFF))
    (hok : ∀ n data, 3 ≤ client.i2c_master_send n data 3) :
    ov5640_write_array client vals w =
      some (0, { w with xfers := w.xfers + k
                        trace := w.trace ++ (vals.take k).map writeEvent }) ∧
    ((vals.take k).map writeEvent).length = k ∧
    ∀ i e, i < k → vals[i]? = some e → ((vals.take k).map writeEvent)[i]? =
      some (Event.i2c_send
        [(e.reg_num >>> 8) % 256, (e.reg_num &&& 0xff) % 256, e.value % 256] 3) := by
  obtain ⟨hsplit, _, hlen⟩ := split_at_index vals k _ hs
  refine ⟨?_, by rw [List.length_map]; exact hlen, ?_⟩
  · have hstep := ov5640_write_array_prefix client (vals.take k)
      (regval_list.mk 0xFFFF 0xFF :: vals.drop (k + 1)) w hfirst
      (fun i e _ => hok (w.xfers + i) (writeFrame e))
    rw [← hsplit, hlen] at hstep
    rw [hstep, ov5640_write_array_sentinel]
  · intro i e hi hie
    rw [List.getElem?_map, List.getElem?_take_of_lt hi, hie]
    rfl

/-- Witness of C1: a table holding both half matches of the sentinel before
the sentinel pair; both are written, the entry after the sentinel is not. -/
theorem ov5640_write_array_success_witness :
    ov5640_write_array (envConst 3 (1, 0))
      [regval_list.mk 0xFFFF 0x00, regval_list.mk 0x3017 0xFF, regval_list.mk 0xFFFF 0xFF,
       regval_list.mk 0x3008 0x02] world0 =
      some (0, { world0 with
        xfers := 2
        trace := [Event.i2c_send [0xFF, 0xFF, 0x00] 3, Event.i2c_send [0x30, 0x17, 0xFF] 3] }) :=
  (ov5640_write_array_success (envConst 3 (1, 0))
    [regval_list.mk 0xFFFF 0x00, regval_list.mk 0x3017 0xFF, regval_list.mk 0xFFFF 0xFF,
     regval_list.mk 0x3008 0x02] 2 world0 rfl (by decide) (fun _ _ => Int.le_refl 3)).1

/-- C2: for every table whose first sentinel pair is at index `k` and every
channel whose send first fails on entry `n < k` (the N-th entry, N = n + 1, the
sends for the entries before it succeeding), `ov5640_write_array` makes exactly
`n + 1` bus transfers, the writes of entries `0 .. n` in order, none for a later
entry, and returns what `ov5640_write_reg` returned for entry `n`: the negative
send result, or `-EIO` for a short transfer; never 0. -/
theorem ov5640_write_array_first_failure (client : Env) (vals : List regval_list)
    (k n : Nat) (e : regval_list) (w : World)
    (_hs : vals[k]? = some (regval_list.mk 0xFFFF 0xFF))
    (hfirst : ∀ x ∈ vals.take k, ¬ (x.reg_num = 0xFFFF ∧ x.value = 0xFF))
    (hn : n < k)
    (hok : ∀ i x, i < n → vals[i]? = some x →
      3 ≤ client.i2c_master_send (w.xfers + i) (writeFrame x) 3)
    (he : vals[n]? = some e)
    (hfail : client.i2c_master_send (w.xfers + n) (writeFrame e) 3 < 3) :
    ov5640_write_array client vals w =
      some ((ov5640_write_reg client e.reg_num e.value
              { w with xfers := w.xfers + n
                       trace := w.trace ++ (vals.take n).map writeEvent }).1,
            { w with xfers := w.xfers + (n + 1)
                     trace := w.trace ++ (vals.take (n + 1)).map writeEvent }) ∧
    ((vals.take (n + 1)).map writeEvent).length = n + 1 ∧
    (ov5640_write_reg client e.reg_num e.value
        { w with xfers := w.xfers + n
                 trace := w.trace ++ (vals.take n).map writeEvent }).1 =
      (if client.i2c_master_send (w.xfers + n) (writeFrame e) 3 < 0
        then client.i2c_master_send (w.xfers + n) (writeFrame e) 3 else - EIO) ∧
    (ov5640_write_reg client e.reg_num e.value
        { w with xfers := w.xfers + n
                 trace := w.trace ++ (vals.take n).map writeEvent }).1 < 0 := by
  have hns : ∀ x ∈ vals.take (n + 1), ¬ (x.reg_num = 0xFFFF ∧ x.value = 0xFF) := by
    intro x hx
    apply hfirst x
    have hsub : (vals.take (n + 1)).Sublist (vals.take k) := by
      have : vals.take (n + 1) = (vals.take k).take (n + 1) := by
        rw [List.take_take]; congr 1; omega
      rw [this]; exact List.take_sublist _ _
    exact hsub.subset hx
  have hf := ov5640_write_reg_fail client e
    { w with xfers := w.xfers + n, trace := w.trace ++ (vals.take n).map writeEvent } hfail
  refine ⟨ov5640_write_array_fail_at client vals n e w hns hok he hfail, ?_, hf.1, hf.2⟩
  have hlen := (split_at_index vals n e he).2.1
  rw [List.length_map, hlen, List.length_append, (split_at_index vals n e he).2.2]
  rfl

/-- Witness of C2: the send for the second entry of a three-entry table fails
with -6; two writes are made and -6 is returned. -/
theorem ov5640_write_array_first_failure_witness :
    ov5640_write_array
      { envConst 3 (1, 0) with i2c_master_send := fun n _ _ => if n = 1 then -6 else 3 }
      [regval_list.mk 0x3103 0x11, regval_list.mk 0x3008 0x82, regval_list.mk 0x3008 0x42,
       regval_list.mk 0xFFFF 0xFF] world0 =
      some (-6, { world0 with
        xfers := 2
        trace := [Event.i2c_send [0x31, 0x03, 0x11] 3, Event.i2c_send [0x30, 0x08, 0x82] 3] }) :=
  (ov5640_write_array_first_failure
    { envConst 3 (1, 0) with i2c_master_send := fun n _ _ => if n = 1 then -6 else 3 }
    [regval_list.mk 0x3103 0x11, regval_list.mk 0x3008 0x82, regval_list.mk 0x3008 0x42,
     regval_list.mk 0xFFFF 0xFF] 3 1 (regval_list.mk 0x3008 0x82) world0 rfl (by decide)
    (by decide)
    (fun i x hi _ => by
      have h0 : i = 0 := by omega
      subst h0
      exact Int.le_refl 3)
    rfl (by decide)).1

/-- Whenever the scan returns, it has written a prefix of the table, in table
order, and nothing else has changed. -/
theorem ov5640_write_array_some (client : Env) :
    ∀ (vals : List regval_list) (w w1 : World) (r : Int),
      ov5640_write_array client vals w = some (r, w1) →
      ∃ n, n ≤ vals.length ∧
        w1 = { w with xfers := w.xfers + n
                      trace := w.trace ++ (vals.take n).map writeEvent } := by
  intro vals
  induction vals with
  | nil => intro w w1 r h; simp [ov5640_write_array] at h
  | cons v vs ih =>
    intro w w1 r h
    by_cases hv : v.reg_num = 0xFFFF ∧ v.value = 0xFF
    · have hc : (v.reg_num != 0xffff || v.value != 0xff) = false := by
        simp [hv.1, hv.2]
      rw [ov5640_write_array, hc] at h
      simp only [Bool.false_eq_true, if_false, Option.some.injEq, Prod.mk.injEq] at h
      exact ⟨0, Nat.zero_le _, by rw [← h.2]; simp⟩
    · rw [ov5640_write_array_cons client v vs w hv, ov5640_write_reg_world] at h
      split at h
      · simp only [Option.some.injEq, Prod.mk.injEq] at h
        refine ⟨1, by simp, ?_⟩
        rw [← h.2]
        simp [writeEvent, writeFrame]
      · obtain ⟨n, hn, hw1⟩ := ih _ w1 r h
        refine ⟨n + 1, by simpa using hn, ?_⟩
        rw [hw1]
        simp [writeEvent, writeFrame, Nat.add_assoc, Nat.add_comm 1]

/-! ## The default table -/

set_option maxRecDepth 100000 in
/-- No entry of the default table is the sentinel pair. -/
theorem default_regs_no_sentinel :
    ∀ e ∈ ov5640_default_regs_init, ¬ (e.reg_num = 0xFFFF ∧ e.value = 0xFF) := by
  decide

set_option maxRecDepth 100000 in
/-- The default table has 268 entries. -/
theorem default_regs_length : ov5640_default_regs_init.length = 268 := by
  decide

set_option maxRecDepth 100000 in
/-- C6 fails on the code: the default table has 268 entries, the last being
(0x530c, 0x06), and none of them is the sentinel pair (0xFFFF, 0xFF); on a
channel where every send succeeds the scan of `ov5640_write_array` therefore
leaves the array, and so does `ov5640_init`. -/
theorem default_regs_unterminated :
    ov5640_default_regs_init.length = 268 ∧
    ov5640_default_regs_init.getLast? = some (regval_list.mk 0x530c 0x06) ∧
    ov5640_default_regs_init.count (regval_list.mk 0xFFFF 0xFF) = 0 ∧
    (∀ e ∈ ov5640_default_regs_init, ¬ (e.reg_num = 0xFFFF ∧ e.value = 0xFF)) ∧
    ov5640_write_array (envConst 3 (1, 0)) ov5640_default_regs_init world0 = none ∧
    ov5640_init (envConst 3 (1, 0)) world0 = none := by
  decide

/-! ## Initialisation -/

/-- The initialisation routine after its bulk programming step. -/
theorem ov5640_init_eq (client : Env) (w : World) :
    ov5640_init client w =
      match ov5640_write_array client ov5640_default_regs_init
          { w with priv := { w.priv with addr := mappedRegs } } with
      | none => none
      | some (_, w1) =>
        some { w1 with
          xfers := w1.xfers + 11
          trace := w1.trace ++ featureEvents ++
            [Event.store w1.priv.addr.reg_ctrl 0x1, Event.store w1.priv.addr.reg_ctrl 0x0,
             Event.store w1.priv.addr.reg_width 0x01400280,
             Event.store w1.priv.addr.reg_height 0x007801E0,
             Event.store w1.priv.addr.reg_tmr 0x000003E8,
             Event.store w1.priv.addr.reg_dest 0x18000000,
             Event.store w1.priv.addr.reg_setup 0x0060F380,
             Event.store w1.priv.addr.reg_fps 0x18,
             Event.store w1.priv.addr.reg_ctrl 0x2] } := by
  unfold ov5640_init
  simp only [ov5640_write_reg_world, World.emit, mappedRegs]
  cases ov5640_write_array client ov5640_default_regs_init _ with
  | none => rfl
  | some p =>
    obtain ⟨r, w1⟩ := p
    simp only [Option.some.injEq]
    have hf : featureEvents =
        [Event.i2c_send [(0x3503 >>> 8) % 256, (0x3503 &&& 0xff) % 256, 0x00 % 256] 3,
         Event.i2c_send [(0x3A19 >>> 8) % 256, (0x3A19 &&& 0xff) % 256, 0xF8 % 256] 3,
         Event.i2c_send [(0x3C01 >>> 8) % 256, (0x3C01 &&& 0xff) % 256, 0x80 % 256] 3,
         Event.i2c_send [(0x3C00 >>> 8) % 256, (0x3C00 &&& 0xff) % 256, 0x04 % 256] 3,
         Event.i2c_send [(0x3A0F >>> 8) % 256, (0x3A0F &&& 0xff) % 256, 0x28 % 256] 3,
         Event.i2c_send [(0x3A10 >>> 8) % 256, (0x3A10 &&& 0xff) % 256, 0x20 % 256] 3,
         Event.i2c_send [(0x3A11 >>> 8) % 256, (0x3A11 &&& 0xff) % 256, 0x51 % 256] 3,
         Event.i2c_send [(0x3A1B >>> 8) % 256, (0x3A1B &&& 0xff) % 256, 0x28 % 256] 3,
         Event.i2c_send [(0x3A1E >>> 8) % 256, (0x3A1E &&& 0xff) % 256, 0x20 % 256] 3,
         Event.i2c_send [(0x3A1F >>> 8) % 256, (0x3A1F &&& 0xff) % 256, 0x10 % 256] 3,
         Event.i2c_send [(0x3406 >>> 8) % 256, (0x3406 &&& 0xff) % 256, 0x00 % 256] 3] := by
      decide
    rw [hf]
    simp only [List.append_assoc, List.cons_append, List.nil_append]

/-- Every run of `ov5640_init` that returns has written a prefix of the default
table, then the eleven feature registers, then the capture registers. -/
theorem ov5640_init_some (client : Env) (w w1 : World) (h : ov5640_init client w = some w1) :
    ∃ n, n ≤ 268 ∧
      w1 = { priv := { w.priv with addr := mappedRegs }
             xfers := w.xfers + n + 11
             trace := w.trace ++ (ov5640_default_regs_init.take n).map writeEvent ++
               featureEvents ++ captureEvents } := by
  rw [ov5640_init_eq] at h
  split at h
  · exact absurd h (by simp)
  · next r w2 hbulk =>
    obtain ⟨n, hn, hw2⟩ := ov5640_write_array_some client _ _ _ _ hbulk
    refine ⟨n, by rw [← default_regs_length]; exact hn, ?_⟩
    simp only [Option.some.injEq] at h
    rw [← h, hw2]
    rfl

/-- When the first failing send of the bulk programming is the one for entry
`n` of the default table, `ov5640_init` returns, having written entries
`0 .. n`, then the eleven feature registers, then the capture registers. -/
theorem ov5640_init_after_failure (client : Env) (w : World) (n : Nat) (e : regval_list)
    (hok : ∀ i x, i < n → ov5640_default_regs_init[i]? = some x →
      3 ≤ client.i2c_master_send (w.xfers + i) (writeFrame x) 3)
    (he : ov5640_default_regs_init[n]? = some e)
    (hfail : client.i2c_master_send (w.xfers + n) (writeFrame e) 3 < 3) :
    ov5640_init client w =
      some { priv := { w.priv with addr := mappedRegs }
             xfers := w.xfers + (n + 1) + 11
             trace := w.trace ++ (ov5640_default_regs_init.take (n + 1)).map writeEvent ++
               featureEvents ++ captureEvents } := by
  have hbulk := ov5640_write_array_fail_at client ov5640_default_regs_init n e
    { w with priv := { w.priv with addr := mappedRegs } }
    (fun x hx => default_regs_no_sentinel x (List.mem_of_mem_take hx)) hok he hfail
  rw [ov5640_init_eq, hbulk]
  rfl

theorem sends_featureEvents : sends featureEvents = featureFrames := by
  decide

theorem sends_captureEvents : sends captureEvents = [] := by
  decide

theorem stores_featureEvents : stores featureEvents = [] := by
  decide

theorem stores_captureEvents : stores captureEvents = captureStores := by
  decide

/-- C5, as stated, fails: on a bus where every send fails with -6 the bulk
programming fails at its first write (entry 0x3103, result -6), yet all eleven
feature writes are issued after it, each failing the same way and each followed
by the next. -/
theorem ov5640_init_writes_after_failure :
    (ov5640_write_array (envConst (-6) (1, 0)) ov5640_default_regs_init world0).map Prod.fst
      = some (-6) ∧
    (ov5640_write_reg (envConst (-6) (1, 0)) 0x3503 0x00 world0).1 = -6 ∧
    (ov5640_init (envConst (-6) (1, 0)) world0).map (fun w => sends w.trace) =
      some [[0x31, 0x03, 0x11],
        [0x35, 0x03, 0x00], [0x3A, 0x19, 0xF8], [0x3C, 0x01, 0x80], [0x3C, 0x00, 0x04],
        [0x3A, 0x0F, 0x28], [0x3A, 0x10, 0x20], [0x3A, 0x11, 0x51], [0x3A, 0x1B, 0x28],
        [0x3A, 0x1E, 0x20], [0x3A, 0x1F, 0x10], [0x34, 0x06, 0x00]] := by
  decide

/-- C5, amended: in `ov5640_init` the bulk programming stops at its first
failing write, but the feature writes are unconditional.  When the first
failing send of the bulk programming is the one for entry `n` of the default
table, the routine returns having sent exactly the frames of entries `0 .. n`
followed by the frames of all eleven feature writes (0x3503, 0x3A19, 0x3C01,
0x3C00, 0x3A0F, 0x3A10, 0x3A11, 0x3A1B, 0x3A1E, 0x3A1F, 0x3406) in that order,
whatever the sends of the feature writes return. -/
theorem ov5640_init_feature_writes_unconditional (client : Env) (w : World) (n : Nat)
    (e : regval_list)
    (hok : ∀ i x, i < n → ov5640_default_regs_init[i]? = some x →
      3 ≤ client.i2c_master_send (w.xfers + i) (writeFrame x) 3)
    (he : ov5640_default_regs_init[n]? = some e)
    (hfail : client.i2c_master_send (w.xfers + n) (writeFrame e) 3 < 3) :
    ∃ w1, ov5640_init client w = some w1 ∧
      sends w1.trace = sends w.trace ++
        (ov5640_default_regs_init.take (n + 1)).map writeFrame ++
        [[0x35, 0x03, 0x00], [0x3A, 0x19, 0xF8], [0x3C, 0x01, 0x80], [0x3C, 0x00, 0x04],
         [0x3A, 0x0F, 0x28], [0x3A, 0x10, 0x20], [0x3A, 0x11, 0x51], [0x3A, 0x1B, 0x28],
         [0x3A, 0x1E, 0x20], [0x3A, 0x1F, 0x10], [0x34, 0x06, 0x00]] ∧
      w1.xfers = w.xfers + (n + 1) + 11 := by
  refine ⟨_, ov5640_init_after_failure client w n e hok he hfail, ?_, rfl⟩
  simp only [sends_append, sends_map_writeEvent, sends_featureEvents, sends_captureEvents,
    List.append_nil]
  rfl

set_option maxRecDepth 100000 in
/-- Witness of the amended C5: the send for the third table entry is a short
transfer (0 bytes) and every other send succeeds. -/
theorem ov5640_init_feature_writes_unconditional_witness :
    ∃ w1, ov5640_init
        { envConst 3 (1, 0) with i2c_master_send := fun n _ _ => if n = 2 then 0 else 3 }
        world0 = some w1 ∧
      sends w1.trace =
        [[0x31, 0x03, 0x11], [0x30, 0x08, 0x82], [0x30, 0x08, 0x42],
         [0x35, 0x03, 0x00], [0x3A, 0x19, 0xF8], [0x3C, 0x01, 0x80], [0x3C, 0x00, 0x04],
         [0x3A, 0x0F, 0x28], [0x3A, 0x10, 0x20], [0x3A, 0x11, 0x51], [0x3A, 0x1B, 0x28],
         [0x3A, 0x1E, 0x20], [0x3A, 0x1F, 0x10], [0x34, 0x06, 0x00]] ∧
      w1.xfers = 14 :=
  ov5640_init_feature_writes_unconditional
    { envConst 3 (1, 0) with i2c_master_send := fun n _ _ => if n = 2 then 0 else 3 }
    world0 2 (regval_list.mk 0x3008 0x42)
    (fun i x hi _ => by
      have h01 : i = 0 ∨ i = 1 := by omega
      rcases h01 with h | h <;> subst h <;> exact Int.le_refl 3)
    rfl (by decide)

/-- Every run of `ov5640_init` that returns has issued exactly these stores to
the capture registers, in this order: control = 0x1, control = 0x0,
width = 0x01400280, height = 0x007801E0, timer = 0x000003E8,
destination = 0x18000000, setup = 0x0060F380, fps = 0x18, control = 0x2; so the
control register receives exactly `[0x1, 0x0, 0x2]` and the six payload stores,
none of them to the control register, lie between the 0x0 and the 0x2.  The
routine returns whenever some send of the bulk programming fails. -/
theorem ov5640_init_stores_of_some (client : Env) (w : World) :
    (∀ w1, ov5640_init client w = some w1 →
      stores w1.trace = stores w.trace ++
        [(APB_BASE_ADDR + REG_CTRL_OFFSET, 0x1), (APB_BASE_ADDR + REG_CTRL_OFFSET, 0x0),
         (APB_BASE_ADDR + REG_WIDTH_OFFSET, 0x01400280),
         (APB_BASE_ADDR + REG_HEIGHT_OFFSET, 0x007801E0),
         (APB_BASE_ADDR + REG_TMR_OFFSET, 0x000003E8),
         (APB_BASE_ADDR + REG_DEST_OFFSET, 0x18000000),
         (APB_BASE_ADDR + REG_SETUP_OFFSET, 0x0060F380),
         (APB_BASE_ADDR + REG_FPS_OFFSET, 0x18), (APB_BASE_ADDR + REG_CTRL_OFFSET, 0x2)] ∧
      ((((stores w1.trace).drop (stores w.trace).length).filter
          (fun p => p.1 = APB_BASE_ADDR + REG_CTRL_OFFSET)).map Prod.snd = [0x1, 0x0, 0x2]) ∧
      (∃ payload, (stores w1.trace).drop (stores w.trace).length =
          [(APB_BASE_ADDR + REG_CTRL_OFFSET, 0x1), (APB_BASE_ADDR + REG_CTRL_OFFSET, 0x0)] ++
            payload ++ [(APB_BASE_ADDR + REG_CTRL_OFFSET, 0x2)] ∧
          payload.length = 6 ∧ ∀ p ∈ payload, p.1 ≠ APB_BASE_ADDR + REG_CTRL_OFFSET)) ∧
    (∀ n e,
      (∀ i x, i < n → ov5640_default_regs_init[i]? = some x →
        3 ≤ client.i2c_master_send (w.xfers + i) (writeFrame x) 3) →
      ov5640_default_regs_init[n]? = some e →
      client.i2c_master_send (w.xfers + n) (writeFrame e) 3 < 3 →
      ∃ w1, ov5640_init client w = some w1) := by
  constructor
  · intro w1 h
    obtain ⟨n, _, hw1⟩ := ov5640_init_some client w w1 h
    have hst : stores w1.trace = stores w.trace ++ captureStores := by
      rw [hw1]
      simp only [stores_append, stores_map_writeEvent, stores_featureEvents,
        stores_captureEvents, List.append_nil]
    have hdrop : (stores w1.trace).drop (stores w.trace).length = captureStores := by
      rw [hst, List.drop_left]
    refine ⟨hst, ?_, ?_⟩
    · rw [hdrop]; decide
    · rw [hdrop]
      exact ⟨[(APB_BASE_ADDR + REG_WIDTH_OFFSET, 0x01400280),
        (APB_BASE_ADDR + REG_HEIGHT_OFFSET, 0x007801E0),
        (APB_BASE_ADDR + REG_TMR_OFFSET, 0x000003E8),
        (APB_BASE_ADDR + REG_DEST_OFFSET, 0x18000000),
        (APB_BASE_ADDR + REG_SETUP_OFFSET, 0x0060F380),
        (APB_BASE_ADDR + REG_FPS_OFFSET, 0x18)], rfl, rfl, by decide⟩
  · intro n e hok he hfail
    exact ⟨_, ov5640_init_after_failure client w n e hok he hfail⟩

set_option maxRecDepth 100000 in
/-- On a bus where every send fails with -6 the routine returns
and its stores are the nine capture register stores. -/
theorem ov5640_init_stores_failing_bus :
    ∃ w1, ov5640_init (envConst (-6) (1, 0)) world0 = some w1 ∧
      stores w1.trace =
        [(0x43C0000C, 0x1), (0x43C0000C, 0x0), (0x43C00000, 0x01400280),
         (0x43C00004, 0x007801E0), (0x43C00008, 0x000003E8), (0x43C00010, 0x18000000),
         (0x43C00014, 0x0060F380), (0x43C00018, 0x18), (0x43C0000C, 0x2)] := by
  have h := ov5640_init_stores_of_some (envConst (-6) (1, 0)) world0
  obtain ⟨w1, hw1⟩ := h.2 0 (regval_list.mk 0x3103 0x11)
    (fun i _ hi _ => absurd hi (Nat.not_lt_zero i)) rfl (by decide)
  exact ⟨w1, hw1, (h.1 w1 hw1).1⟩

/-! ## Reads of the identity registers -/

/-- The frames sent by `ov5640_read_reg`: the address frame, in every case. -/
theorem ov5640_read_reg_sends (client : Env) (reg val : Nat) (w : World) :
    sends (ov5640_read_reg client reg val w).2.2.trace =
      sends w.trace ++ [[(reg >>> 8) % 256, (reg &&& 0xff) % 256]] := by
  unfold ov5640_read_reg
  simp only [World.emit]
  split
  · simp [sends_append, sends]
  · split <;> simp [sends_append, sends]

/-- A read whose send and receive both succeed. -/
theorem ov5640_read_reg_ok (client : Env) (reg val : Nat) (w : World) (r : Int) (b : Nat)
    (hs : 2 ≤ client.i2c_master_send w.xfers [(reg >>> 8) % 256, (reg &&& 0xff) % 256] 2)
    (hrecv : client.i2c_master_recv (w.xfers + 1) 1 = (r, b)) (hr : 1 ≤ r) :
    ov5640_read_reg client reg val w =
      (0, b, { w with
        xfers := w.xfers + 2
        trace := w.trace ++
          [Event.i2c_send [(reg >>> 8) % 256, (reg &&& 0xff) % 256] 2, Event.i2c_recv 1] }) := by
  unfold ov5640_read_reg
  simp only [World.emit]
  rw [if_neg (by omega), hrecv]
  simp only
  rw [if_neg (by omega)]
  simp

/-! ## Initialisation on a working bus -/

/-- C9 fails on the code: on every bus on which the sends for the 268 entries
of the default table succeed, the scan of the bulk programming leaves the
array, which has no sentinel pair, before `ov5640_init` reaches its stores to
the capture registers; the run has no result and the nine stores are not
issued by any defined step. -/
theorem ov5640_init_working_bus (client : Env) (w : World)
    (hok : ∀ i x, ov5640_default_regs_init[i]? = some x →
      3 ≤ client.i2c_master_send (w.xfers + i) (writeFrame x) 3) :
    ov5640_write_array client ov5640_default_regs_init
        { w with priv := { w.priv with addr := mappedRegs } } = none ∧
    ov5640_init client w = none := by
  have hscan : ov5640_write_array client ov5640_default_regs_init
      { w with priv := { w.priv with addr := mappedRegs } } = none := by
    have h := ov5640_write_array_prefix client ov5640_default_regs_init []
      { w with priv := { w.priv with addr := mappedRegs } } default_regs_no_sentinel hok
    rw [List.append_nil] at h
    rw [h]
    rfl
  refine ⟨hscan, ?_⟩
  rw [ov5640_init_eq, hscan]

/-- Witness of C9's failing input: a bus on which every send transfers all
three bytes. -/
theorem ov5640_init_working_bus_witness :
    ov5640_init (envConst 3 (1, 0)) world0 = none :=
  (ov5640_init_working_bus (envConst 3 (1, 0)) world0 (fun _ _ _ => Int.le_refl 3)).2

/-! ## The probe and the identity of the sensor -/

/-- C11, as stated, fails: with a sensor that would answer the identity reads
with 0x56 and 0x41 (identity 0x5641), `ov5640_probe` returns 0 without any bus
transfer, so without reading 0x300A or 0x300B, and its outcome is the same as
with a sensor that would answer 0x56 and 0x40. -/
theorem ov5640_probe_accepts_other_chip :
    (ov5640_probe envOtherChip world0).1 = 0 ∧
    busTransfers (ov5640_probe envOtherChip world0).2.trace = 0 ∧
    sends (ov5640_probe envOtherChip world0).2.trace = [] ∧
    ov5640_probe envOtherChip world0 = ov5640_probe envIdent world0 := by
  decide

/-- The serial bus plays no part in `ov5640_probe`. -/
theorem ov5640_probe_bus_independent (client : Env) (w : World)
    (send : Nat → List Nat → Nat → Int) (recv : Nat → Nat → Int × Nat) :
    ov5640_probe { client with i2c_master_send := send, i2c_master_recv := recv } w =
      ov5640_probe client w := by
  rfl

/-- C11, amended: `ov5640_probe` as compiled performs no chip identification.
On every platform it makes no bus transfer, so it sends neither the address of
the high identity register 0x300A nor that of the low identity register 0x300B
and composes no identity; its outcome does not depend on the bytes the sensor
would return, and with a valid reset line whose request succeeds it returns 0
whatever the sensor would answer, 0x5640 or not.  The identity registers stay
defined as `REG_CHIP_ID_HIGH` = 0x300A and `REG_CHIP_ID_LOW` = 0x300B, and a
read of them through `ov5640_read_reg` sends the frames `[0x30, 0x0A]` and
`[0x30, 0x0B]`. -/
theorem ov5640_probe_no_identification (client : Env) (w : World)
    (send : Nat → List Nat → Nat → Int) (recv : Nat → Nat → Int × Nat) (val : Nat) :
    busTransfers (ov5640_probe client w).2.trace = busTransfers w.trace ∧
    sends (ov5640_probe client w).2.trace = sends w.trace ∧
    (ov5640_probe client w).2.xfers = w.xfers ∧
    ov5640_probe { client with i2c_master_send := send, i2c_master_recv := recv } w =
      ov5640_probe client w ∧
    (client.gpio_is_valid client.of_get_named_gpio = true →
      0 ≤ client.devm_gpio_request_one client.of_get_named_gpio →
      (ov5640_probe { client with i2c_master_send := send, i2c_master_recv := recv } w).1
        = 0) ∧
    REG_CHIP_ID_HIGH = 0x300A ∧ REG_CHIP_ID_LOW = 0x300B ∧
    sends (ov5640_read_reg client REG_CHIP_ID_HIGH val w).2.2.trace =
      sends w.trace ++ [[0x30, 0x0A]] ∧
    sends (ov5640_read_reg client REG_CHIP_ID_LOW val w).2.2.trace =
      sends w.trace ++ [[0x30, 0x0B]] := by
  have hprobe : busTransfers (ov5640_probe client w).2.trace = busTransfers w.trace ∧
      sends (ov5640_probe client w).2.trace = sends w.trace ∧
      (ov5640_probe client w).2.xfers = w.xfers := by
    cases hv : client.gpio_is_valid client.of_get_named_gpio with
    | false =>
      have h : ov5640_probe client w =
          (- EINVAL, { w with priv := { w.priv with rst_gpio := client.of_get_named_gpio } }) := by
        unfold ov5640_probe
        simp [hv]
      rw [h]
      exact ⟨rfl, rfl, rfl⟩
    | true =>
      rw [ov5640_probe_valid client w hv]
      split
      · refine ⟨?_, ?_, rfl⟩
        · simp only [busTransfers_append]; rfl
        · simp only [sends_append]; simp [sends]
      · refine ⟨?_, ?_, rfl⟩
        · simp only [busTransfers_append]; rfl
        · simp only [sends_append]; simp [sends]
  refine ⟨hprobe.1, hprobe.2.1, hprobe.2.2, rfl, ?_, rfl, rfl, ?_, ?_⟩
  · intro hv hr
    have h := ov5640_probe_valid client w hv
    rw [if_neg (by omega)] at h
    have hb : ov5640_probe { client with i2c_master_send := send, i2c_master_recv := recv } w
        = ov5640_probe client w := rfl
    rw [hb, h]
  · rw [ov5640_read_reg_sends]; rfl
  · rw [ov5640_read_reg_sends]; rfl

/-- Witness of the amended C11: on the platform of `envIdent`, whatever sensor
is put on the bus, here one answering 0x56 and 0x41, the probe returns 0. -/
theorem ov5640_probe_no_identification_witness :
    (ov5640_probe envOtherChip world0).1 = 0 ∧
    sends (ov5640_probe envIdent world0).2.trace = [] :=
  have h := ov5640_probe_no_identification envIdent world0
    (fun _ _ _ => 3) (fun n _ => if n = 1 then (1, 0x56) else (1, 0x41)) 0
  ⟨h.2.2.2.2.1 (by decide) (by decide), h.2.1⟩

end OV5640
